import Mathlib

/-!
Verification of the results-reporting engine of `switch_mod/hawaii/save_results.py`
(switch-chile repository) against its natural-language specification.

The solved Pyomo model instance is embedded as the structure `Model`: each
Pyomo set becomes a list, each indexed parameter or solved variable becomes a
total function, each sparse decision-variable map becomes a key list plus a
value function (Pyomo only materializes variables for valid index tuples, and
the code tests membership with `in` before indexing), and each
`hasattr(m, ...)` capability probe becomes a `Bool` field.  Solver numerics
are embedded as exact rationals, so the "within floating-point tolerance"
clauses of the specification become exact equalities here.  Python's `set(...)`
comprehensions become `List.dedup`, and report rows become lists of `Val`
cells (string or numeric), so a report table is a header `List String` plus
rows `List (List Val)`.

Functions of `save_results.py` are translated definition by definition under
their source names.  The helpers it imports from `switch_mod/hawaii/util.py`
and `switch_mod/financials.py` are not part of the staged sources; those are
modelled from the specification's contracts and are marked as such in their
doc comments.
-/

/-- Cell of a report row: the Python code emits either a string label or a
numeric value in each column. -/
inductive Val : Type where
  | str : String → Val
  | num : ℚ → Val
deriving DecidableEq, Repr

/-- Embedding of the solved-model object read by `save_results.py`.  Index
sets are lists, parameters and solved variables are total functions, sparse
variable maps are a key list plus a value function, and every
`hasattr(m, ...)` probe of an optional subsystem is a `Bool` flag. -/
structure Model : Type where
  PERIODS : List Nat
  TIMEPOINTS : List Nat
  TIMESERIES : List Nat
  LOAD_ZONES : List String
  PROJECTS : List Nat
  FUELS : List String
  NON_FUEL_ENERGY_SOURCES : List String
  LZ_Energy_Components_Produce : List String
  LZ_Energy_Components_Consume : List String
  PROJ_DISPATCH_POINTS : List (Nat × Nat)
  RFM_SUPPLY_TIERS : List (String × Nat × String)
  REGIONAL_FUEL_MARKET : List String
  PH_PROJECTS : List Nat
  PROJECT_BUILDYEARS : List (Nat × Nat)
  PERIOD_TPS : Nat → List Nat
  tp_period : Nat → Nat
  tp_ts : Nat → Nat
  tp_timestamp : Nat → String
  ts_scale_to_year : Nat → ℚ
  proj_gen_tech : Nat → String
  proj_load_zone : Nat → String
  g_uses_fuel : String → Bool
  G_FUELS : String → List String
  g_energy_source_raw : String → String
  PROJECTS_BY_FUEL : String → List Nat
  PROJECTS_BY_NON_FUEL_ENERGY_SOURCE : String → List Nat
  DispatchProjKeys : List (Nat × Nat)
  DispatchProjVal : Nat → Nat → ℚ
  DispatchUpperLimitKeys : List (Nat × Nat)
  DispatchUpperLimitVal : Nat → Nat → ℚ
  ProjFuelUseRate : Nat → Nat → String → ℚ
  ProjCapacity : Nat → Nat → ℚ
  BuildProjKeys : List (Nat × Nat)
  BuildProjVal : Nat → Nat → ℚ
  proj_overnight_cost : Nat → Nat → ℚ
  proj_connect_cost_per_mw : Nat → ℚ
  scenario_name : String
  has_demand_response_max_share : Bool
  demand_response_max_share : ℚ
  has_lz_demand_mw : Bool
  hasDemandResponse : Bool
  hasChargeEVs : Bool
  lz_component_value : String → String → Nat → ℚ
  SystemCost : ℚ
  SystemCostPerPeriod : Nat → ℚ
  bring_timepoint_costs_to_base_year : Nat → ℚ
  hasRPS : Bool
  RPSEligiblePower : Nat → ℚ
  RPSTotalPower : Nat → ℚ
  RPSFuelPower : Nat → ℚ
  discount_rate : ℚ
  period_length_years : Nat → Nat
  period_start : Nat → ℤ
  base_financial_year : ℤ
  dualKeys : List (String × Nat)
  dualVal : String → Nat → ℚ
  hasBattery_Capacity : Bool
  Battery_Capacity : String → Nat → ℚ
  battery_max_discharge : ℚ
  battery_min_discharge_time : ℚ
  hasPumped_Hydro_Capacity_MW : Bool
  Pumped_Hydro_Capacity_MW : String → Nat → ℚ
  hasFuelCellCapacityMW : Bool
  FuelCellCapacityMW : String → Nat → ℚ
  hasBuildBattery : Bool
  BuildBattery : String → Nat → ℚ
  hasBuildPumpedHydroMW : Bool
  BuildPumpedHydroMW : Nat → Nat → ℚ
  ph_load_zone : Nat → String
  ph_capital_cost_per_mw : Nat → ℚ
  hasBuildElectrolyzerMW : Bool
  BuildElectrolyzerMW : String → Nat → ℚ
  BuildLiquifierKgPerHour : String → Nat → ℚ
  BuildLiquidHydrogenTankKg : String → Nat → ℚ
  BuildFuelCellMW : String → Nat → ℚ
  hydrogen_electrolyzer_capital_cost_per_mw : ℚ
  hydrogen_liquifier_capital_cost_per_kg_per_hour : ℚ
  liquid_hydrogen_tank_capital_cost_per_kg : ℚ
  hydrogen_fuel_cell_capital_cost_per_mw : ℚ
  has_ev_share : Bool
  ev_share : String → Nat → ℚ
  n_all_vehicles : String → Nat → ℚ
  has_battery_capital_cost_single : Bool
  battery_capital_cost_per_mwh_capacity : ℚ
  has_battery_capital_cost_by_year : Bool
  battery_capital_cost_per_mwh_capacity_by_year : Nat → ℚ
  hasREGIONAL_FUEL_MARKET : Bool
  RFM_P_SUPPLY_TIERS : String → Nat → List (String × Nat × String)
  FuelConsumptionByTier : String × Nat × String → ℚ
  rfm_supply_tier_cost : String × Nat × String → ℚ
  hasRFM_Fixed_Costs_Annual : Bool
  RFM_Fixed_Costs_Annual : Nat → ℚ
  has_ev_extra_annual_cost : Bool
  ev_extra_annual_cost : Nat → ℚ
  has_ice_annual_fuel_cost : Bool
  ice_annual_fuel_cost : Nat → ℚ
  hasRFMSupplyTierActivate : Bool
  RFMSupplyTierActivate : String × Nat × String → ℚ

/-- Modelled from the spec: `util.get` (Sparse Value Accessor, section 4.2;
`switch_mod/hawaii/util.py` is not among the staged sources).  Looking up an
index absent from a sparse decision-variable map returns the default instead
of raising. -/
def util_get {K : Type} [DecidableEq K] (keys : List K) (val : K → ℚ) (k : K)
    (default : ℚ) : ℚ :=
  if k ∈ keys then val k else default

/-- Embedding of the local expression
`m.DispatchProj[proj, tp] if (proj, tp) in m.DispatchProj else 0.0`
(line 117 of `save_results.py`). -/
def dispatchOf (m : Model) (proj tp : Nat) : ℚ :=
  if (proj, tp) ∈ m.DispatchProjKeys then m.DispatchProjVal proj tp else 0

/-- Embedding of the denominator
`sum(m.ProjFuelUseRate[proj, tp, f] for f in m.G_FUELS[m.proj_gen_tech[proj]])`
(line 128 of `save_results.py`). -/
def fuelUseTotal (m : Model) (proj tp : Nat) : ℚ :=
  ((m.G_FUELS (m.proj_gen_tech proj)).map (fun f => m.ProjFuelUseRate proj tp f)).sum

/-- Embedding of `DispatchProjByFuel` (lines 112-132 of `save_results.py`):
dispatch allocated to one fuel in proportion to its use rate, with the
zero-dispatch short circuit and the `ZeroDivisionError` handler that yields
`0.0` when the total use rate is zero. -/
def DispatchProjByFuel (m : Model) (proj tp : Nat) (fuel : String) : ℚ :=
  let dispatch := dispatchOf m proj tp
  if dispatch = 0 then 0
  else
    let total := fuelUseTotal m proj tp
    if total = 0 then 0
    else dispatch * m.ProjFuelUseRate proj tp fuel / total

/-- Modelled from the spec: `financials.uniform_series_to_present_value`
(section 4.4; `switch_mod/financials.py` is not among the staged sources).
Standard annuity factor converting an annual stream over `t` years at rate
`dr` to a lump sum, with the rate-zero limit equal to `t`. -/
def uniform_series_to_present_value (dr : ℚ) (t : Nat) : ℚ :=
  if dr = 0 then (t : ℚ) else (1 - ((1 + dr) ^ t)⁻¹) / dr

/-- Modelled from the spec: `financials.future_to_present_value`
(section 4.4; `switch_mod/financials.py` is not among the staged sources).
Compound discounting of a value `t` years after the base year back to the
base year. -/
def future_to_present_value (dr : ℚ) (t : ℤ) : ℚ :=
  if 0 ≤ t then ((1 + dr) ^ t.toNat)⁻¹ else (1 + dr) ^ (-t).toNat

/-- Embedding of the combined discount factor computed inside
`annualize_present_value_period_cost` (lines 101-109 of `save_results.py`). -/
def period_discount_factor (m : Model) (period : Nat) : ℚ :=
  uniform_series_to_present_value m.discount_rate (m.period_length_years period) *
    future_to_present_value m.discount_rate (m.period_start period - m.base_financial_year)

/-- Embedding of `annualize_present_value_period_cost` (lines 99-110 of
`save_results.py`). -/
def annualize_present_value_period_cost (m : Model) (period : Nat) (val : ℚ) : ℚ :=
  val / period_discount_factor m period

/-- Embedding of the list `demand_components` of `summary_values` (line 46):
the names among `lz_demand_mw`, `DemandResponse`, `ChargeEVs` that the model
instance carries. -/
def demand_components (m : Model) : List String :=
  (if m.has_lz_demand_mw then ["lz_demand_mw"] else [])
    ++ (if m.hasDemandResponse then ["DemandResponse"] else [])
    ++ (if m.hasChargeEVs then ["ChargeEVs"] else [])

/-- Embedding of the denominator shared by the cost-per-kWh entries of
`summary_values` (lines 60-79): discounted kWh served over the given
timepoints. -/
def kwh_denominator (m : Model) (tps : List Nat) : ℚ :=
  (tps.map (fun t =>
    m.bring_timepoint_costs_to_base_year t * 1000 *
      ((demand_components m).map (fun c =>
        (m.LOAD_ZONES.map (fun lz => m.lz_component_value c lz t)).sum)).sum)).sum

/-- Embedding of `summary_headers` (lines 35-43 of `save_results.py`). -/
def summary_headers (m : Model) : List String :=
  ["scenario", "max_demand_response_share", "total_cost", "cost_per_kwh"]
    ++ m.PERIODS.map (fun p => "cost_per_kwh_" ++ toString p)
    ++ (if m.hasRPS then
          "renewable_share_all_years" :: m.PERIODS.map (fun p => "renewable_share_" ++ toString p)
        else [])
    ++ (if m.hasRPS then
          "biofuel_share_all_years" :: m.PERIODS.map (fun p => "biofuel_share_" ++ toString p)
        else [])

/-- Embedding of `summary_values` (lines 45-97 of `save_results.py`). -/
def summary_values (m : Model) : List Val :=
  [Val.str m.scenario_name,
   Val.num (if m.has_demand_response_max_share then m.demand_response_max_share else 0),
   Val.num m.SystemCost,
   Val.num (m.SystemCost / kwh_denominator m m.TIMEPOINTS)]
    ++ m.PERIODS.map (fun p =>
        Val.num (m.SystemCostPerPeriod p / kwh_denominator m (m.PERIOD_TPS p)))
    ++ (if m.hasRPS then
          Val.num ((m.PERIODS.map m.RPSEligiblePower).sum / (m.PERIODS.map m.RPSTotalPower).sum)
            :: m.PERIODS.map (fun p => Val.num (m.RPSEligiblePower p / m.RPSTotalPower p))
            ++ (Val.num ((m.PERIODS.map m.RPSFuelPower).sum / (m.PERIODS.map m.RPSTotalPower).sum)
                :: m.PERIODS.map (fun p => Val.num (m.RPSFuelPower p / m.RPSTotalPower p)))
        else [])

/-- Embedding of `avg_ts_scale` (line 152 of `save_results.py`): arithmetic
mean of the timeseries scale-to-year factors. -/
def avg_ts_scale (m : Model) : ℚ :=
  (m.TIMESERIES.map (fun ts => m.ts_scale_to_year ts)).sum / (m.TIMESERIES.length : ℚ)

/-- Embedding of the `headings` argument of the energy-sources report
(lines 156-163 of `save_results.py`). -/
def energy_sources_headings (m : Model) : List String :=
  ["load_zone", "period", "timepoint_label"]
    ++ m.FUELS
    ++ m.NON_FUEL_ENERGY_SOURCES
    ++ m.NON_FUEL_ENERGY_SOURCES.map (fun s => "curtail_" ++ s)
    ++ m.LZ_Energy_Components_Produce
    ++ m.LZ_Energy_Components_Consume
    ++ ["marginal_cost", "peak_day"]

/-- Embedding of the `values` row function of the energy-sources report
(lines 164-185 of `save_results.py`). -/
def energy_sources_row (m : Model) (z : String) (t : Nat) : List Val :=
  [Val.str z, Val.num (m.tp_period t : ℚ), Val.str (m.tp_timestamp t)]
    ++ m.FUELS.map (fun f =>
        Val.num (((m.PROJECTS_BY_FUEL f).map (fun p => DispatchProjByFuel m p t f)).sum))
    ++ m.NON_FUEL_ENERGY_SOURCES.map (fun s =>
        Val.num (((m.PROJECTS_BY_NON_FUEL_ENERGY_SOURCE s).map (fun p =>
          util_get m.DispatchProjKeys (fun k => m.DispatchProjVal k.1 k.2) (p, t) 0)).sum))
    ++ m.NON_FUEL_ENERGY_SOURCES.map (fun s =>
        Val.num (((m.PROJECTS_BY_NON_FUEL_ENERGY_SOURCE s).map (fun p =>
          util_get m.DispatchUpperLimitKeys (fun k => m.DispatchUpperLimitVal k.1 k.2) (p, t) 0
            - util_get m.DispatchProjKeys (fun k => m.DispatchProjVal k.1 k.2) (p, t) 0)).sum))
    ++ m.LZ_Energy_Components_Produce.map (fun c => Val.num (m.lz_component_value c z t))
    ++ m.LZ_Energy_Components_Consume.map (fun c => Val.num (m.lz_component_value c z t))
    ++ [Val.num (util_get m.dualKeys (fun k => m.dualVal k.1 k.2) (z, t) 0
          / m.bring_timepoint_costs_to_base_year t),
        Val.str (if m.ts_scale_to_year (m.tp_ts t) < avg_ts_scale m then "peak" else "typical")]

/-- Embedding of the local lambda `g_energy_source` (line 189 of
`save_results.py`): fuel-using technologies are labelled by the sorted
slash-joined list of their fuels, others by the `g_energy_source`
parameter. -/
def g_energy_source (m : Model) (t : String) : String :=
  if m.g_uses_fuel t then
    String.intercalate "/" (List.insertionSort (fun a b => a ≤ b) (m.G_FUELS t))
  else m.g_energy_source_raw t

/-- Embedding of `built_proj` (lines 190-192 of `save_results.py`): projects
with capacity above 0.001 in some period (a Python `set`, embedded as a
deduplicated list). -/
def built_proj (m : Model) : List Nat :=
  (m.PERIODS.flatMap (fun pe =>
    m.PROJECTS.filter (fun pr => decide (m.ProjCapacity pr pe > 1/1000)))).dedup

/-- Embedding of `operate_proj_in_period` (lines 193-196 of
`save_results.py`): the (project, period) pairs whose project dispatches more
than 0.001 at some dispatch point of the period. -/
def operate_proj_in_period (m : Model) : List (Nat × Nat) :=
  ((m.PROJ_DISPATCH_POINTS.filter (fun q =>
      decide (m.DispatchProjVal q.1 q.2 > 1/1000))).map
    (fun q => (q.1, m.tp_period q.2))).dedup

/-- Embedding of `built_tech` (line 197 of `save_results.py`). -/
def built_tech (m : Model) : List String :=
  ((built_proj m).map (fun p => m.proj_gen_tech p)).dedup

/-- Embedding of `built_energy_source` (line 198 of `save_results.py`). -/
def built_energy_source (m : Model) : List String :=
  ((built_tech m).map (fun t => g_energy_source m t)).dedup

/-- Embedding of the local lambda `battery_capacity_mw` (lines 201-204 of
`save_results.py`): 0.0 when the battery subsystem is absent. -/
def battery_capacity_mw (m : Model) (z : String) (pe : Nat) : ℚ :=
  if m.hasBattery_Capacity then
    m.Battery_Capacity z pe * m.battery_max_discharge / m.battery_min_discharge_time
  else 0

/-- Embedding of the `headings` argument of the capacity-by-technology report
(line 208 of `save_results.py`): the batteries / hydro / fuel-cell columns are
always present. -/
def capacity_by_technology_headings (m : Model) : List String :=
  ["load_zone", "period"] ++ built_tech m ++ ["hydro", "batteries", "fuel cells"]

/-- Embedding of one technology cell of the capacity-by-technology report
(lines 209-215 of `save_results.py`): capacity of matching built projects,
counted only when the project operates in the period. -/
def capacity_by_technology_cell (m : Model) (z : String) (pe : Nat) (t : String) : ℚ :=
  (((built_proj m).filter (fun pr =>
      decide (m.proj_gen_tech pr = t ∧ m.proj_load_zone pr = z))).map
    (fun pr => if (pr, pe) ∈ operate_proj_in_period m then m.ProjCapacity pr pe else 0)).sum

/-- Embedding of the `values` row function of the capacity-by-technology
report (lines 209-220 of `save_results.py`). -/
def capacity_by_technology_row (m : Model) (z : String) (pe : Nat) : List Val :=
  [Val.str z, Val.num (pe : ℚ)]
    ++ (built_tech m).map (fun t => Val.num (capacity_by_technology_cell m z pe t))
    ++ [Val.num (if m.hasPumped_Hydro_Capacity_MW then m.Pumped_Hydro_Capacity_MW z pe else 0),
        Val.num (battery_capacity_mw m z pe),
        Val.num (if m.hasFuelCellCapacityMW then m.FuelCellCapacityMW z pe else 0)]

/-- Embedding of the `headings` argument of the capacity-by-energy-source
report (line 224 of `save_results.py`). -/
def capacity_by_energy_source_headings (m : Model) : List String :=
  ["load_zone", "period"] ++ built_energy_source m ++ ["hydro", "batteries", "fuel cells"]

/-- Embedding of one energy-source cell of the capacity-by-energy-source
report (lines 225-231 of `save_results.py`). -/
def capacity_by_energy_source_cell (m : Model) (z : String) (pe : Nat) (s : String) : ℚ :=
  (((built_proj m).filter (fun pr =>
      decide (g_energy_source m (m.proj_gen_tech pr) = s ∧ m.proj_load_zone pr = z))).map
    (fun pr => if (pr, pe) ∈ operate_proj_in_period m then m.ProjCapacity pr pe else 0)).sum

/-- Embedding of the `values` row function of the capacity-by-energy-source
report (lines 225-236 of `save_results.py`). -/
def capacity_by_energy_source_row (m : Model) (z : String) (pe : Nat) : List Val :=
  [Val.str z, Val.num (pe : ℚ)]
    ++ (built_energy_source m).map (fun s => Val.num (capacity_by_energy_source_cell m z pe s))
    ++ [Val.num (if m.hasPumped_Hydro_Capacity_MW then m.Pumped_Hydro_Capacity_MW z pe else 0),
        Val.num (battery_capacity_mw m z pe),
        Val.num (if m.hasFuelCellCapacityMW then m.FuelCellCapacityMW z pe else 0)]

/-- Embedding of `cost_breakdown_details` (lines 239-339 of
`save_results.py`), block by block in source order. -/
def cost_breakdown_details (m : Model) (z : String) (pe : Nat) : List Val :=
  [Val.str z, Val.num (pe : ℚ)]
    ++ (built_tech m).map (fun t =>
        Val.num ((((built_proj m).filter (fun pr =>
            decide (m.proj_gen_tech pr = t ∧ m.proj_load_zone pr = z
              ∧ (pr, pe) ∈ m.BuildProjKeys))).map
          (fun pr => m.BuildProjVal pr pe)).sum))
    ++ (if m.hasBuildBattery then
          [Val.num (m.BuildBattery z pe / m.battery_min_discharge_time),
           Val.num (m.BuildBattery z pe)]
        else [Val.num 0, Val.num 0])
    ++ [Val.num (if m.hasBuildPumpedHydroMW then
          ((m.PH_PROJECTS.filter (fun pr => decide (m.ph_load_zone pr = z))).map
            (fun pr => m.BuildPumpedHydroMW pr pe)).sum
        else 0)]
    ++ (if m.hasBuildElectrolyzerMW then
          [Val.num (m.BuildElectrolyzerMW z pe),
           Val.num (m.BuildLiquifierKgPerHour z pe),
           Val.num (m.BuildLiquidHydrogenTankKg z pe),
           Val.num (m.BuildFuelCellMW z pe)]
        else [Val.num 0, Val.num 0, Val.num 0, Val.num 0])
    ++ (if m.has_ev_share then
          [Val.num (m.n_all_vehicles z pe * m.ev_share z pe),
           Val.num (m.n_all_vehicles z pe * (1 - m.ev_share z pe))]
        else [])
    ++ (built_tech m).map (fun t =>
        Val.num ((((built_proj m).filter (fun pr =>
            decide (m.proj_gen_tech pr = t ∧ m.proj_load_zone pr = z
              ∧ (pr, pe) ∈ m.PROJECT_BUILDYEARS))).map
          (fun pr => m.BuildProjVal pr pe *
            (m.proj_overnight_cost pr pe + m.proj_connect_cost_per_mw pr))).sum))
    ++ (if m.has_battery_capital_cost_single then
          [Val.num (m.BuildBattery z pe * m.battery_capital_cost_per_mwh_capacity)]
        else if m.has_battery_capital_cost_by_year then
          [Val.num (m.BuildBattery z pe * m.battery_capital_cost_per_mwh_capacity_by_year pe)]
        else [Val.num 0])
    ++ [Val.num (if m.hasBuildPumpedHydroMW then
          ((m.PH_PROJECTS.filter (fun pr => decide (m.ph_load_zone pr = z))).map
            (fun pr => m.BuildPumpedHydroMW pr pe * m.ph_capital_cost_per_mw pr)).sum
        else 0)]
    ++ (if m.hasBuildElectrolyzerMW then
          [Val.num (m.BuildElectrolyzerMW z pe * m.hydrogen_electrolyzer_capital_cost_per_mw),
           Val.num (m.BuildLiquifierKgPerHour z pe * m.hydrogen_liquifier_capital_cost_per_kg_per_hour),
           Val.num (m.BuildLiquidHydrogenTankKg z pe * m.liquid_hydrogen_tank_capital_cost_per_kg),
           Val.num (m.BuildFuelCellMW z pe * m.hydrogen_fuel_cell_capital_cost_per_mw)]
        else [Val.num 0, Val.num 0, Val.num 0, Val.num 0])
    ++ (if m.hasREGIONAL_FUEL_MARKET then
          m.REGIONAL_FUEL_MARKET.map (fun rfm =>
            Val.num (((m.RFM_P_SUPPLY_TIERS rfm pe).map (fun st =>
              m.FuelConsumptionByTier st * m.rfm_supply_tier_cost st)).sum))
        else [])
    ++ (if m.hasRFM_Fixed_Costs_Annual then [Val.num (m.RFM_Fixed_Costs_Annual pe)] else [])
    ++ [Val.num (annualize_present_value_period_cost m pe (m.SystemCostPerPeriod pe))]
    ++ (if m.has_ev_extra_annual_cost then
          [Val.num (m.ev_extra_annual_cost pe), Val.num (m.ice_annual_fuel_cost pe)]
        else [])

/-- Embedding of the `headings` argument of the cost-breakdown report
(lines 343-359 of `save_results.py`).  The EV capital-recovery column and the
ICE fuel-cost column are gated on two distinct attribute probes. -/
def cost_breakdown_headings (m : Model) : List String :=
  ["load_zone", "period"]
    ++ (built_tech m).map (fun t => t ++ "_mw_added")
    ++ ["batteries_mw_added", "batteries_mwh_added", "hydro_mw_added"]
    ++ ["h2_electrolyzer_mw_added", "h2_liquifier_kg_per_hour_added",
        "liquid_h2_tank_kg_added", "fuel_cell_mw_added"]
    ++ (if m.has_ev_share then ["ev_count", "ice_count"] else [])
    ++ (built_tech m).map (fun t => t ++ "_overnight_cost")
    ++ ["batteries_overnight_cost", "hydro_overnight_cost"]
    ++ ["h2_electrolyzer_overnight_cost", "h2_liquifier_overnight_cost",
        "liquid_h2_tank_overnight_cost", "fuel_cell_overnight_cost"]
    ++ (if m.hasREGIONAL_FUEL_MARKET then
          m.REGIONAL_FUEL_MARKET.map (fun rfm => rfm ++ "_annual_cost")
        else [])
    ++ (if m.hasRFM_Fixed_Costs_Annual then ["fuel_market_expansion_annual_cost"] else [])
    ++ ["total_electricity_cost"]
    ++ (if m.has_ev_extra_annual_cost then ["ev_extra_capital_recovery"] else [])
    ++ (if m.has_ice_annual_fuel_cost then ["ice_annual_fuel_cost"] else [])

/-- Embedding of the `headings` of the fuel-market-tier activation report
(line 373 of `save_results.py`). -/
def rfm_activate_headings : List String :=
  ["market", "period", "tier", "activate"]

/-- Embedding of the `values` row function of the fuel-market-tier activation
report (line 374 of `save_results.py`). -/
def rfm_activate_row (m : Model) (rst : String × Nat × String) : List Val :=
  [Val.str rst.1, Val.num (rst.2.1 : ℚ), Val.str rst.2.2,
   Val.num (m.RFMSupplyTierActivate rst)]

/-- Modelled from the spec: the iteration core of `util.write_table`
(Report Table Builder, section 4.5; `switch_mod/hawaii/util.py` is not among
the staged sources).  The Cartesian product of the declared index sets, in
declared order with the first-declared dimension varying slowest. -/
def cartesian {α : Type} : List (List α) → List (List α)
  | [] => [[]]
  | d :: ds => d.flatMap (fun x => (cartesian ds).map (fun tup => x :: tup))

/-- Modelled from the spec: `util.write_table` materializes one data row per
tuple of the Cartesian product of its index sets, by calling the row function
once per tuple (section 4.5). -/
def build_table {α : Type} (dims : List (List α)) (row_fn : List α → List Val) :
    List (List Val) :=
  (cartesian dims).map row_fn

/-- One report table: a header plus its data rows. -/
def write_results_tables (m : Model) : List (List String × List (List Val)) :=
  [(summary_headers m, [summary_values m]),
   (energy_sources_headings m,
     m.LOAD_ZONES.flatMap (fun z => m.TIMEPOINTS.map (fun t => energy_sources_row m z t))),
   (capacity_by_technology_headings m,
     m.LOAD_ZONES.flatMap (fun z => m.PERIODS.map (fun pe => capacity_by_technology_row m z pe))),
   (capacity_by_energy_source_headings m,
     m.LOAD_ZONES.flatMap (fun z => m.PERIODS.map (fun pe => capacity_by_energy_source_row m z pe))),
   (cost_breakdown_headings m,
     m.LOAD_ZONES.flatMap (fun z => m.PERIODS.map (fun pe => cost_breakdown_details m z pe)))]
    ++ (if m.hasRFMSupplyTierActivate then
          [(rfm_activate_headings, m.RFM_SUPPLY_TIERS.map (fun rst => rfm_activate_row m rst))]
        else [])

/-- Sequential execution semantics of the `write_results` body (lines 134-375
of `save_results.py`): the report computations run one after another with no
exception handling, so the produced tables are those before the first
failure, paired with that failure if any. -/
def run_reports (reports : List (Except String (List String × List (List Val)))) :
    List (List String × List (List Val)) × Option String :=
  match reports with
  | [] => ([], none)
  | Except.ok tbl :: rest =>
      let r := run_reports rest
      (tbl :: r.1, r.2)
  | Except.error e :: _ => ([], some e)

/-- Concrete model exercising the fuel allocator: one project dispatching 100
with two eligible fuels, each with use rate 3. -/
def mC1 : Model where
  PERIODS := [0]
  TIMEPOINTS := [0]
  TIMESERIES := [0]
  LOAD_ZONES := ["oahu"]
  PROJECTS := [0]
  FUELS := ["coal", "oil"]
  NON_FUEL_ENERGY_SOURCES := []
  LZ_Energy_Components_Produce := []
  LZ_Energy_Components_Consume := []
  PROJ_DISPATCH_POINTS := [(0, 0)]
  RFM_SUPPLY_TIERS := []
  REGIONAL_FUEL_MARKET := []
  PH_PROJECTS := []
  PROJECT_BUILDYEARS := []
  PERIOD_TPS := fun _ => [0]
  tp_period := fun _ => 0
  tp_ts := fun _ => 0
  tp_timestamp := fun _ => "t0"
  ts_scale_to_year := fun _ => 1
  proj_gen_tech := fun _ => "steam"
  proj_load_zone := fun _ => "oahu"
  g_uses_fuel := fun _ => true
  G_FUELS := fun _ => ["coal", "oil"]
  g_energy_source_raw := fun _ => ""
  PROJECTS_BY_FUEL := fun _ => [0]
  PROJECTS_BY_NON_FUEL_ENERGY_SOURCE := fun _ => []
  DispatchProjKeys := [(0, 0)]
  DispatchProjVal := fun _ _ => 100
  DispatchUpperLimitKeys := []
  DispatchUpperLimitVal := fun _ _ => 0
  ProjFuelUseRate := fun _ _ _ => 3
  ProjCapacity := fun _ _ => 0
  BuildProjKeys := []
  BuildProjVal := fun _ _ => 0
  proj_overnight_cost := fun _ _ => 0
  proj_connect_cost_per_mw := fun _ => 0
  scenario_name := ""
  has_demand_response_max_share := false
  demand_response_max_share := 0
  has_lz_demand_mw := true
  hasDemandResponse := false
  hasChargeEVs := false
  lz_component_value := fun _ _ _ => 1
  SystemCost := 0
  SystemCostPerPeriod := fun _ => 0
  bring_timepoint_costs_to_base_year := fun _ => 1
  hasRPS := false
  RPSEligiblePower := fun _ => 0
  RPSTotalPower := fun _ => 1
  RPSFuelPower := fun _ => 0
  discount_rate := 0
  period_length_years := fun _ => 2
  period_start := fun _ => 0
  base_financial_year := 0
  dualKeys := []
  dualVal := fun _ _ => 0
  hasBattery_Capacity := false
  Battery_Capacity := fun _ _ => 0
  battery_max_discharge := 1
  battery_min_discharge_time := 1
  hasPumped_Hydro_Capacity_MW := false
  Pumped_Hydro_Capacity_MW := fun _ _ => 0
  hasFuelCellCapacityMW := false
  FuelCellCapacityMW := fun _ _ => 0
  hasBuildBattery := false
  BuildBattery := fun _ _ => 0
  hasBuildPumpedHydroMW := false
  BuildPumpedHydroMW := fun _ _ => 0
  ph_load_zone := fun _ => ""
  ph_capital_cost_per_mw := fun _ => 0
  hasBuildElectrolyzerMW := false
  BuildElectrolyzerMW := fun _ _ => 0
  BuildLiquifierKgPerHour := fun _ _ => 0
  BuildLiquidHydrogenTankKg := fun _ _ => 0
  BuildFuelCellMW := fun _ _ => 0
  hydrogen_electrolyzer_capital_cost_per_mw := 0
  hydrogen_liquifier_capital_cost_per_kg_per_hour := 0
  liquid_hydrogen_tank_capital_cost_per_kg := 0
  hydrogen_fuel_cell_capital_cost_per_mw := 0
  has_ev_share := false
  ev_share := fun _ _ => 0
  n_all_vehicles := fun _ _ => 0
  has_battery_capital_cost_single := false
  battery_capital_cost_per_mwh_capacity := 0
  has_battery_capital_cost_by_year := false
  battery_capital_cost_per_mwh_capacity_by_year := fun _ => 0
  hasREGIONAL_FUEL_MARKET := false
  RFM_P_SUPPLY_TIERS := fun _ _ => []
  FuelConsumptionByTier := fun _ => 0
  rfm_supply_tier_cost := fun _ => 0
  hasRFM_Fixed_Costs_Annual := false
  RFM_Fixed_Costs_Annual := fun _ => 0
  has_ev_extra_annual_cost := false
  ev_extra_annual_cost := fun _ => 0
  has_ice_annual_fuel_cost := false
  ice_annual_fuel_cost := fun _ => 0
  hasRFMSupplyTierActivate := false
  RFMSupplyTierActivate := fun _ => 0

/-- Concrete model for C3: dispatch is nonzero but every fuel-use rate is
zero. -/
def mC3 : Model :=
  { mC1 with ProjFuelUseRate := fun _ _ _ => 0 }

/-- Concrete model for the C6 counterexample: the model carries
`ice_annual_fuel_cost` but not `ev_extra_annual_cost`, so the cost-breakdown
header gains a column the row never fills.  The project set is empty so the
table shape is fully concrete, while the single load zone and single period
make the builder emit exactly one cost-breakdown data row. -/
def mC6 : Model :=
  { mC1 with PROJECTS := [], has_ice_annual_fuel_cost := true }

/-- Sum of a list of scaled quotients pulled apart: each term shares the same
numerator factor and denominator. -/
theorem sum_map_mul_div {α : Type} (D S : ℚ) (r : α → ℚ) (l : List α) :
    (l.map (fun f => D * r f / S)).sum = D * (l.map r).sum / S := by
  induction l with
  | nil => simp
  | cons a as ih =>
    simp only [List.map_cons, List.sum_cons, ih, mul_add, add_div]

/-- Proportional shares of a common factor over a list sum back to the
factor itself when the normalizing total is the list's own sum and is
nonzero. -/
theorem sum_map_mul_div_self {α : Type} (D S : ℚ) (r : α → ℚ) (l : List α)
    (hS : (l.map r).sum = S) (hs : S ≠ 0) :
    (l.map (fun f => D * r f / S)).sum = D := by
  subst hS
  rw [sum_map_mul_div, mul_div_assoc, div_self hs, mul_one]

/-- C1: with nonzero dispatch and nonzero total fuel-use rate, each fuel's
allocated dispatch is `total_dispatch * use_rate[fuel] / sum(use_rate)`, and
the allocations over the project's eligible fuels sum back to the total
dispatch (exactly, in the rational embedding). -/
theorem C1_fuel_allocation_proportional_and_sums_to_dispatch
    (m : Model) (proj tp : Nat) (fuel : String)
    (hd : dispatchOf m proj tp ≠ 0) (hs : fuelUseTotal m proj tp ≠ 0) :
    DispatchProjByFuel m proj tp fuel
        = dispatchOf m proj tp * m.ProjFuelUseRate proj tp fuel / fuelUseTotal m proj tp
      ∧ ((m.G_FUELS (m.proj_gen_tech proj)).map
            (fun f => DispatchProjByFuel m proj tp f)).sum
        = dispatchOf m proj tp := by
  constructor
  · simp [DispatchProjByFuel, hd, hs]
  · have he : ∀ f ∈ m.G_FUELS (m.proj_gen_tech proj),
        DispatchProjByFuel m proj tp f
          = dispatchOf m proj tp * m.ProjFuelUseRate proj tp f / fuelUseTotal m proj tp := by
      intro f _
      simp [DispatchProjByFuel, hd, hs]
    rw [List.map_congr_left he]
    exact sum_map_mul_div_self (dispatchOf m proj tp) (fuelUseTotal m proj tp)
      (fun f => m.ProjFuelUseRate proj tp f) (m.G_FUELS (m.proj_gen_tech proj)) rfl hs

/-- Witness for C1 at the concrete model `mC1`. -/
theorem C1_fuel_allocation_witness :
    dispatchOf mC1 0 0 ≠ 0 ∧ fuelUseTotal mC1 0 0 ≠ 0 ∧
      (DispatchProjByFuel mC1 0 0 "coal"
          = dispatchOf mC1 0 0 * mC1.ProjFuelUseRate 0 0 "coal" / fuelUseTotal mC1 0 0
        ∧ ((mC1.G_FUELS (mC1.proj_gen_tech 0)).map
              (fun f => DispatchProjByFuel mC1 0 0 f)).sum
          = dispatchOf mC1 0 0) :=
  ⟨by norm_num [dispatchOf, mC1], by norm_num [fuelUseTotal, mC1],
    C1_fuel_allocation_proportional_and_sums_to_dispatch mC1 0 0 "coal"
      (by norm_num [dispatchOf, mC1]) (by norm_num [fuelUseTotal, mC1])⟩

/-- C2: when the project's dispatch at the timepoint is exactly zero, or the
index pair is absent from the sparse dispatch map, the allocator returns
exactly zero, whatever the fuel use rates are. -/
theorem C2_zero_dispatch_allocates_zero (m : Model) (proj tp : Nat) (fuel : String)
    (h : (proj, tp) ∉ m.DispatchProjKeys ∨ m.DispatchProjVal proj tp = 0) :
    DispatchProjByFuel m proj tp fuel = 0 := by
  have hz : dispatchOf m proj tp = 0 := by
    rcases h with h | h
    · simp [dispatchOf, h]
    · simp [dispatchOf, h]
  simp [DispatchProjByFuel, hz]

/-- Witness for C2: the dispatch index is absent from the sparse map of `mC1`
(which carries nonzero fuel-use rates). -/
theorem C2_zero_dispatch_witness :
    ((1, 0) ∉ mC1.DispatchProjKeys ∨ mC1.DispatchProjVal 1 0 = 0) ∧
      DispatchProjByFuel mC1 1 0 "coal" = 0 :=
  ⟨Or.inl (by decide),
    C2_zero_dispatch_allocates_zero mC1 1 0 "coal" (Or.inl (by decide))⟩

/-- C3: nonzero dispatch with a zero total fuel-use rate (the inconsistent
solver case routed through the `ZeroDivisionError` handler) yields an
allocation of zero rather than a fault. -/
theorem C3_zero_use_rate_total_allocates_zero (m : Model) (proj tp : Nat) (fuel : String)
    (hd : dispatchOf m proj tp ≠ 0) (hs : fuelUseTotal m proj tp = 0) :
    DispatchProjByFuel m proj tp fuel = 0 := by
  simp [DispatchProjByFuel, hd, hs]

/-- Witness for C3 at the concrete model `mC3`. -/
theorem C3_zero_use_rate_witness :
    dispatchOf mC3 0 0 ≠ 0 ∧ fuelUseTotal mC3 0 0 = 0 ∧
      DispatchProjByFuel mC3 0 0 "coal" = 0 :=
  ⟨by norm_num [dispatchOf, mC3, mC1], by norm_num [fuelUseTotal, mC3, mC1],
    C3_zero_use_rate_total_allocates_zero mC3 0 0 "coal"
      (by norm_num [dispatchOf, mC3, mC1]) (by norm_num [fuelUseTotal, mC3, mC1])⟩

/-- C4: the annualizer divides the present-value cost by the product of the
uniform-series factor and the future-to-present factor, so multiplying the
result back by that product recovers the cost whenever the product is
nonzero. -/
theorem C4_annualize_divides_and_round_trips (m : Model) (period : Nat) (val : ℚ)
    (h : period_discount_factor m period ≠ 0) :
    annualize_present_value_period_cost m period val
        = val / (uniform_series_to_present_value m.discount_rate (m.period_length_years period)
            * future_to_present_value m.discount_rate (m.period_start period - m.base_financial_year))
      ∧ annualize_present_value_period_cost m period val * period_discount_factor m period
        = val :=
  ⟨rfl, div_mul_cancel₀ val h⟩

/-- Witness for C4 at `mC1` (discount rate 0, period length 2, no offset: the
discount factor evaluates to 2). -/
theorem C4_annualize_witness :
    period_discount_factor mC1 0 ≠ 0 ∧
      (annualize_present_value_period_cost mC1 0 10
          = 10 / (uniform_series_to_present_value mC1.discount_rate (mC1.period_length_years 0)
              * future_to_present_value mC1.discount_rate (mC1.period_start 0 - mC1.base_financial_year))
        ∧ annualize_present_value_period_cost mC1 0 10 * period_discount_factor mC1 0 = 10) :=
  ⟨by norm_num [period_discount_factor, uniform_series_to_present_value,
      future_to_present_value, mC1],
    C4_annualize_divides_and_round_trips mC1 0 10
      (by norm_num [period_discount_factor, uniform_series_to_present_value,
        future_to_present_value, mC1])⟩

/-- Sum of guarded terms over a list equals the sum over the sublist passing
the guard. -/
theorem sum_map_ite_filter {α : Type} (l : List α) (p : α → Prop) [DecidablePred p]
    (f : α → ℚ) :
    (l.map (fun x => if p x then f x else 0)).sum
      = ((l.filter (fun x => decide (p x))).map f).sum := by
  induction l with
  | nil => simp
  | cons a as ih =>
    by_cases h : p a
    · simp [h, ih]
    · simp [h, ih]

/-- C5 counterexample: in a model without the battery subsystem (`mC1` has
`hasBattery_Capacity = false`) the capacity-by-technology header still
carries the `batteries` column and the data row carries a `0.0` placeholder,
so the schema does not narrow for this subsystem. -/
theorem C5_counterexample_battery_column_not_omitted :
    mC1.hasBattery_Capacity = false
      ∧ "batteries" ∈ capacity_by_technology_headings mC1
      ∧ Val.num 0 ∈ capacity_by_technology_row mC1 "oahu" 0 := by
  refine ⟨rfl, ?_, ?_⟩
  · simp [capacity_by_technology_headings]
  · unfold capacity_by_technology_row
    refine List.mem_append_right _ ?_
    simp [battery_capacity_mw, mC1]

/-- C5 amended: absence of the battery, pumped-hydro, fuel-cell and hydrogen
subsystems does not narrow these schemas.  Both capacity reports still emit
the `hydro`, `batteries` and `fuel cells` columns with all three cells the
placeholder `0.0`, and the cost-breakdown report still emits its battery,
hydro and hydrogen capacity-added and overnight-cost columns with every such
cell the placeholder `0.0`. -/
theorem C5_amended_capacity_and_cost_columns_padded (m : Model) (z : String) (pe : Nat)
    (habs : m.hasBattery_Capacity = false ∧ m.hasPumped_Hydro_Capacity_MW = false
      ∧ m.hasFuelCellCapacityMW = false ∧ m.hasBuildBattery = false
      ∧ m.hasBuildPumpedHydroMW = false ∧ m.hasBuildElectrolyzerMW = false
      ∧ m.has_battery_capital_cost_single = false
      ∧ m.has_battery_capital_cost_by_year = false) :
    (["hydro", "batteries", "fuel cells"] : List String) ⊆ capacity_by_technology_headings m
      ∧ (["hydro", "batteries", "fuel cells"] : List String) ⊆ capacity_by_energy_source_headings m
      ∧ capacity_by_technology_row m z pe
          = [Val.str z, Val.num (pe : ℚ)]
            ++ (built_tech m).map (fun t => Val.num (capacity_by_technology_cell m z pe t))
            ++ [Val.num 0, Val.num 0, Val.num 0]
      ∧ capacity_by_energy_source_row m z pe
          = [Val.str z, Val.num (pe : ℚ)]
            ++ (built_energy_source m).map (fun s => Val.num (capacity_by_energy_source_cell m z pe s))
            ++ [Val.num 0, Val.num 0, Val.num 0]
      ∧ (["batteries_mw_added", "batteries_mwh_added", "hydro_mw_added",
          "h2_electrolyzer_mw_added", "h2_liquifier_kg_per_hour_added",
          "liquid_h2_tank_kg_added", "fuel_cell_mw_added",
          "batteries_overnight_cost", "hydro_overnight_cost",
          "h2_electrolyzer_overnight_cost", "h2_liquifier_overnight_cost",
          "liquid_h2_tank_overnight_cost", "fuel_cell_overnight_cost"] : List String)
          ⊆ cost_breakdown_headings m
      ∧ cost_breakdown_details m z pe
          = [Val.str z, Val.num (pe : ℚ)]
            ++ (built_tech m).map (fun t =>
                Val.num ((((built_proj m).filter (fun pr =>
                    decide (m.proj_gen_tech pr = t ∧ m.proj_load_zone pr = z
                      ∧ (pr, pe) ∈ m.BuildProjKeys))).map
                  (fun pr => m.BuildProjVal pr pe)).sum))
            ++ [Val.num 0, Val.num 0]
            ++ [Val.num 0]
            ++ [Val.num 0, Val.num 0, Val.num 0, Val.num 0]
            ++ (if m.has_ev_share then
                  [Val.num (m.n_all_vehicles z pe * m.ev_share z pe),
                   Val.num (m.n_all_vehicles z pe * (1 - m.ev_share z pe))]
                else [])
            ++ (built_tech m).map (fun t =>
                Val.num ((((built_proj m).filter (fun pr =>
                    decide (m.proj_gen_tech pr = t ∧ m.proj_load_zone pr = z
                      ∧ (pr, pe) ∈ m.PROJECT_BUILDYEARS))).map
                  (fun pr => m.BuildProjVal pr pe *
                    (m.proj_overnight_cost pr pe + m.proj_connect_cost_per_mw pr))).sum))
            ++ [Val.num 0]
            ++ [Val.num 0]
            ++ [Val.num 0, Val.num 0, Val.num 0, Val.num 0]
            ++ (if m.hasREGIONAL_FUEL_MARKET then
                  m.REGIONAL_FUEL_MARKET.map (fun rfm =>
                    Val.num (((m.RFM_P_SUPPLY_TIERS rfm pe).map (fun st =>
                      m.FuelConsumptionByTier st * m.rfm_supply_tier_cost st)).sum))
                else [])
            ++ (if m.hasRFM_Fixed_Costs_Annual then [Val.num (m.RFM_Fixed_Costs_Annual pe)] else [])
            ++ [Val.num (annualize_present_value_period_cost m pe (m.SystemCostPerPeriod pe))]
            ++ (if m.has_ev_extra_annual_cost then
                  [Val.num (m.ev_extra_annual_cost pe), Val.num (m.ice_annual_fuel_cost pe)]
                else []) := by
  obtain ⟨hb, hp, hf, hbb, hbph, hbe, hbc1, hbc2⟩ := habs
  refine ⟨?_, ?_, ?_, ?_, ?_, ?_⟩
  · simp [capacity_by_technology_headings]
  · simp [capacity_by_energy_source_headings]
  · simp [capacity_by_technology_row, battery_capacity_mw, hb, hp, hf]
  · simp [capacity_by_energy_source_row, battery_capacity_mw, hb, hp, hf]
  · simp [cost_breakdown_headings]
  · simp [cost_breakdown_details, hbb, hbph, hbe, hbc1, hbc2]

/-- Witness for the amended C5 at the concrete model `mC1`, where all the
battery, pumped-hydro, fuel-cell and hydrogen attributes are absent. -/
theorem C5_amended_padding_witness :
    (mC1.hasBattery_Capacity = false ∧ mC1.hasPumped_Hydro_Capacity_MW = false
      ∧ mC1.hasFuelCellCapacityMW = false ∧ mC1.hasBuildBattery = false
      ∧ mC1.hasBuildPumpedHydroMW = false ∧ mC1.hasBuildElectrolyzerMW = false
      ∧ mC1.has_battery_capital_cost_single = false
      ∧ mC1.has_battery_capital_cost_by_year = false) ∧
      ((["hydro", "batteries", "fuel cells"] : List String) ⊆ capacity_by_technology_headings mC1
        ∧ (["hydro", "batteries", "fuel cells"] : List String) ⊆ capacity_by_energy_source_headings mC1
        ∧ capacity_by_technology_row mC1 "oahu" 0
            = [Val.str "oahu", Val.num ((0 : Nat) : ℚ)]
              ++ (built_tech mC1).map (fun t => Val.num (capacity_by_technology_cell mC1 "oahu" 0 t))
              ++ [Val.num 0, Val.num 0, Val.num 0]
        ∧ capacity_by_energy_source_row mC1 "oahu" 0
            = [Val.str "oahu", Val.num ((0 : Nat) : ℚ)]
              ++ (built_energy_source mC1).map (fun s => Val.num (capacity_by_energy_source_cell mC1 "oahu" 0 s))
              ++ [Val.num 0, Val.num 0, Val.num 0]
        ∧ (["batteries_mw_added", "batteries_mwh_added", "hydro_mw_added",
            "h2_electrolyzer_mw_added", "h2_liquifier_kg_per_hour_added",
            "liquid_h2_tank_kg_added", "fuel_cell_mw_added",
            "batteries_overnight_cost", "hydro_overnight_cost",
            "h2_electrolyzer_overnight_cost", "h2_liquifier_overnight_cost",
            "liquid_h2_tank_overnight_cost", "fuel_cell_overnight_cost"] : List String)
            ⊆ cost_breakdown_headings mC1
        ∧ cost_breakdown_details mC1 "oahu" 0
            = [Val.str "oahu", Val.num ((0 : Nat) : ℚ)]
              ++ (built_tech mC1).map (fun t =>
                  Val.num ((((built_proj mC1).filter (fun pr =>
                      decide (mC1.proj_gen_tech pr = t ∧ mC1.proj_load_zone pr = "oahu"
                        ∧ (pr, 0) ∈ mC1.BuildProjKeys))).map
                    (fun pr => mC1.BuildProjVal pr 0)).sum))
              ++ [Val.num 0, Val.num 0]
              ++ [Val.num 0]
              ++ [Val.num 0, Val.num 0, Val.num 0, Val.num 0]
              ++ (if mC1.has_ev_share then
                    [Val.num (mC1.n_all_vehicles "oahu" 0 * mC1.ev_share "oahu" 0),
                     Val.num (mC1.n_all_vehicles "oahu" 0 * (1 - mC1.ev_share "oahu" 0))]
                  else [])
              ++ (built_tech mC1).map (fun t =>
                  Val.num ((((built_proj mC1).filter (fun pr =>
                      decide (mC1.proj_gen_tech pr = t ∧ mC1.proj_load_zone pr = "oahu"
                        ∧ (pr, 0) ∈ mC1.PROJECT_BUILDYEARS))).map
                    (fun pr => mC1.BuildProjVal pr 0 *
                      (mC1.proj_overnight_cost pr 0 + mC1.proj_connect_cost_per_mw pr))).sum))
              ++ [Val.num 0]
              ++ [Val.num 0]
              ++ [Val.num 0, Val.num 0, Val.num 0, Val.num 0]
              ++ (if mC1.hasREGIONAL_FUEL_MARKET then
                    mC1.REGIONAL_FUEL_MARKET.map (fun rfm =>
                      Val.num (((mC1.RFM_P_SUPPLY_TIERS rfm 0).map (fun st =>
                        mC1.FuelConsumptionByTier st * mC1.rfm_supply_tier_cost st)).sum))
                  else [])
              ++ (if mC1.hasRFM_Fixed_Costs_Annual then [Val.num (mC1.RFM_Fixed_Costs_Annual 0)] else [])
              ++ [Val.num (annualize_present_value_period_cost mC1 0 (mC1.SystemCostPerPeriod 0))]
              ++ (if mC1.has_ev_extra_annual_cost then
                    [Val.num (mC1.ev_extra_annual_cost 0), Val.num (mC1.ice_annual_fuel_cost 0)]
                  else [])) :=
  ⟨⟨rfl, rfl, rfl, rfl, rfl, rfl, rfl, rfl⟩,
    C5_amended_capacity_and_cost_columns_padded mC1 "oahu" 0
      ⟨rfl, rfl, rfl, rfl, rfl, rfl, rfl, rfl⟩⟩

/-- C7: the last cell of an energy-sources row is `peak` exactly when the
timepoint's timeseries scale-to-year factor is strictly below the mean over
all timeseries, and `typical` exactly otherwise (ties are `typical`). -/
theorem C7_peak_day_classification (m : Model) (z : String) (t : Nat) :
    ((energy_sources_row m z t).getLast? = some (Val.str "peak")
        ↔ m.ts_scale_to_year (m.tp_ts t) < avg_ts_scale m)
      ∧ ((energy_sources_row m z t).getLast? = some (Val.str "typical")
        ↔ ¬ m.ts_scale_to_year (m.tp_ts t) < avg_ts_scale m) := by
  have hne : ("peak" : String) ≠ "typical" := by decide
  have hlast : (energy_sources_row m z t).getLast?
      = some (Val.str
          (if m.ts_scale_to_year (m.tp_ts t) < avg_ts_scale m then "peak" else "typical")) := by
    simp [energy_sources_row, List.getLast?_cons, List.getLast?_append]
  by_cases h : m.ts_scale_to_year (m.tp_ts t) < avg_ts_scale m
  · rw [hlast]
    simp [h, hne, hne.symm]
  · rw [hlast]
    simp [h, hne, hne.symm]

/-- C9 counterexample: with the sequential, unguarded execution of
`write_results`, a failure in the first report computation prevents the
later report from being produced even though its own computation succeeds. -/
theorem C9_counterexample_failure_blocks_later_reports :
    run_reports [Except.error "fail", Except.ok (rfm_activate_headings, [])]
        = ([], some "fail")
      ∧ (rfm_activate_headings, ([] : List (List Val)))
          ∉ (run_reports [Except.error "fail", Except.ok (rfm_activate_headings, [])]).1 := by
  constructor
  · rfl
  · simp [run_reports]

/-- C9 amended: the reports run in a fixed sequence with no exception
handling; when every computation succeeds all tables are produced in order
(and the conditionally omitted RFM report never blocks the others, the
summary table heading the list regardless), but a raising computation stops
the sequence, so only the tables before the first failure are produced. -/
theorem C9_amended_sequential_report_execution
    (ts : List (List String × List (List Val))) (e : String)
    (post : List (Except String (List String × List (List Val)))) (m : Model) :
    run_reports (ts.map Except.ok) = (ts, none)
      ∧ run_reports (ts.map Except.ok ++ Except.error e :: post) = (ts, some e)
      ∧ (summary_headers m, [summary_values m]) ∈ write_results_tables m := by
  refine ⟨?_, ?_, by simp [write_results_tables]⟩
  · induction ts with
    | nil => rfl
    | cons a as ih => simp [run_reports, ih]
  · induction ts with
    | nil => rfl
    | cons a as ih => simp [run_reports, ih]

/-- C10: a technology (or energy-source) capacity cell sums the capacity of
exactly those built projects of matching technology/source and zone that
also operate in the period, and a (project, period) pair operates precisely
when the project dispatches more than 0.001 at some of its dispatch points
in that period. -/
theorem C10_capacity_counts_only_operating_projects (m : Model) (z : String)
    (pe : Nat) (t s : String) (pr : Nat) :
    capacity_by_technology_cell m z pe t
        = ((((built_proj m).filter (fun q =>
              decide (m.proj_gen_tech q = t ∧ m.proj_load_zone q = z))).filter
            (fun q => decide ((q, pe) ∈ operate_proj_in_period m))).map
          (fun q => m.ProjCapacity q pe)).sum
      ∧ capacity_by_energy_source_cell m z pe s
        = ((((built_proj m).filter (fun q =>
              decide (g_energy_source m (m.proj_gen_tech q) = s ∧ m.proj_load_zone q = z))).filter
            (fun q => decide ((q, pe) ∈ operate_proj_in_period m))).map
          (fun q => m.ProjCapacity q pe)).sum
      ∧ ((pr, pe) ∈ operate_proj_in_period m ↔
          ∃ q ∈ m.PROJ_DISPATCH_POINTS, q.1 = pr ∧ m.tp_period q.2 = pe
            ∧ m.DispatchProjVal q.1 q.2 > 1/1000) := by
  refine ⟨?_, ?_, ?_⟩
  · exact sum_map_ite_filter _ _ _
  · exact sum_map_ite_filter _ _ _
  · unfold operate_proj_in_period
    rw [List.mem_dedup, List.mem_map]
    constructor
    · rintro ⟨q, hq, heq⟩
      rw [List.mem_filter, decide_eq_true_eq] at hq
      rw [Prod.mk.injEq] at heq
      exact ⟨q, hq.1, heq.1, heq.2, hq.2⟩
    · rintro ⟨q, hq, h1, h2, h3⟩
      refine ⟨q, ?_, ?_⟩
      · rw [List.mem_filter, decide_eq_true_eq]
        exact ⟨hq, h3⟩
      · rw [Prod.mk.injEq]
        exact ⟨h1, h2⟩

/-- Flattening singleton images is the same as mapping. -/
theorem flatMap_map_singleton {α β : Type} (l : List α) (f : α → β) :
    (l.flatMap fun x => [f x]) = l.map f := by
  induction l with
  | nil => rfl
  | cons a as ih => simp [ih]

/-- Row count of the Cartesian product: the product of the dimension sizes. -/
theorem length_cartesian {α : Type} (dims : List (List α)) :
    (cartesian dims).length = (dims.map List.length).prod := by
  induction dims with
  | nil => simp [cartesian]
  | cons d ds ih =>
    simp only [cartesian, List.length_flatMap, Function.comp_def, List.length_map, ih,
      List.map_const', List.sum_replicate, smul_eq_mul, List.map_cons, List.prod_cons]

/-- Position of an element in a flattened list of uniform-length blocks:
block `i`, offset `j`. -/
theorem getElem?_flatMap_uniform {α β : Type} (g : α → List β) (n : Nat)
    (hg : ∀ x, (g x).length = n) (l : List α) (i j : Nat) (hi : i < l.length)
    (hj : j < n) :
    (l.flatMap g)[i * n + j]? = (g (l.get ⟨i, hi⟩))[j]? := by
  induction l generalizing i with
  | nil => simp at hi
  | cons a as ih =>
    cases i with
    | zero =>
      simp only [List.flatMap_cons, Nat.zero_mul, Nat.zero_add]
      rw [List.getElem?_append_left (by rw [hg]; exact hj)]
      rfl
    | succ k =>
      simp only [List.flatMap_cons]
      have h1 : (k + 1) * n + j = (g a).length + (k * n + j) := by
        rw [hg]; ring
      rw [h1, List.getElem?_append_right (Nat.le_add_right _ _)]
      have h2 : (g a).length + (k * n + j) - (g a).length = k * n + j := by omega
      rw [h2]
      have hk : k < as.length := by
        simp only [List.length_cons] at hi
        omega
      exact ih k hk

/-- C8: the table builder over two declared dimensions produces exactly
`size(D1) * size(D2)` rows, and the row at position `i * size(D2) + j` is the
row function applied to the `(i, j)`-th tuple, so rows follow the declared
dimension order with the first dimension varying slowest and the row function
is invoked once per tuple of the Cartesian product. -/
theorem C8_builder_cartesian_product {α : Type} (d1 d2 : List α)
    (row_fn : List α → List Val) (i j : Nat) (hi : i < d1.length)
    (hj : j < d2.length) :
    (build_table [d1, d2] row_fn).length = d1.length * d2.length
      ∧ (build_table [d1, d2] row_fn)[i * d2.length + j]?
          = some (row_fn [d1[i], d2[j]]) := by
  have hc : cartesian [d1, d2] = d1.flatMap (fun x => d2.map (fun y => [x, y])) := by
    simp [cartesian, flatMap_map_singleton, Function.comp_def]
  constructor
  · simp [build_table, length_cartesian]
  · rw [build_table, hc, List.getElem?_map]
    rw [getElem?_flatMap_uniform (fun x => d2.map (fun y => [x, y])) d2.length
      (fun x => by simp) d1 i j hi hj]
    rw [List.getElem?_map, List.getElem?_eq_getElem hj]
    simp

/-- Witness for C8 on concrete dimensions of sizes 2 and 3, at row index
`1 * 3 + 2`. -/
theorem C8_builder_witness :
    1 < (["a", "b"] : List String).length ∧ 2 < (["x", "y", "z"] : List String).length ∧
      ((build_table [["a", "b"], ["x", "y", "z"]] (fun l => l.map Val.str)).length
          = (["a", "b"] : List String).length * (["x", "y", "z"] : List String).length
        ∧ (build_table [["a", "b"], ["x", "y", "z"]]
              (fun l => l.map Val.str))[1 * (["x", "y", "z"] : List String).length + 2]?
            = some ((fun l => l.map Val.str)
                [(["a", "b"] : List String)[1], (["x", "y", "z"] : List String)[2]])) :=
  ⟨by decide, by decide,
    C8_builder_cartesian_product ["a", "b"] ["x", "y", "z"] (fun l => l.map Val.str)
      1 2 (by decide) (by decide)⟩

/-- C6 counterexample: `mC6` carries `ice_annual_fuel_cost` but not
`ev_extra_annual_cost`; its cost-breakdown table (one zone, one period) emits
exactly the row at ("oahu", 0), and that emitted row is one cell shorter than
the header, because the row emits the EV and ICE cost cells under a single
attribute probe while the header gates them under two. -/
theorem C6_counterexample_cost_breakdown_arity_mismatch :
    (cost_breakdown_headings mC6,
        mC6.LOAD_ZONES.flatMap (fun z =>
          mC6.PERIODS.map (fun pe => cost_breakdown_details mC6 z pe)))
        ∈ write_results_tables mC6
      ∧ cost_breakdown_details mC6 "oahu" 0
          ∈ mC6.LOAD_ZONES.flatMap (fun z =>
              mC6.PERIODS.map (fun pe => cost_breakdown_details mC6 z pe))
      ∧ (cost_breakdown_details mC6 "oahu" 0).length
          ≠ (cost_breakdown_headings mC6).length := by
  refine ⟨?_, ?_, ?_⟩
  · simp [write_results_tables]
  · simp [mC6, mC1]
  · simp [cost_breakdown_details, cost_breakdown_headings, built_tech, built_proj,
      mC6, mC1]

/-- C6 amended: every report's data row has the same arity as its header,
provided the model carries the EV extra-cost attribute exactly when it
carries the ICE fuel-cost attribute (the source gates the header on the two
probes separately but emits both cells under the first, so the arity
invariant holds only on that proviso; each table's rows all come from the one
row function, so column order is uniform across rows). -/
theorem C6_amended_row_arity_matches_header (m : Model) (z : String) (t pe : Nat)
    (rst : String × Nat × String)
    (hEV : m.has_ev_extra_annual_cost = m.has_ice_annual_fuel_cost) :
    (summary_values m).length = (summary_headers m).length
      ∧ (energy_sources_row m z t).length = (energy_sources_headings m).length
      ∧ (capacity_by_technology_row m z pe).length
          = (capacity_by_technology_headings m).length
      ∧ (capacity_by_energy_source_row m z pe).length
          = (capacity_by_energy_source_headings m).length
      ∧ (cost_breakdown_details m z pe).length = (cost_breakdown_headings m).length
      ∧ (rfm_activate_row m rst).length = rfm_activate_headings.length := by
  refine ⟨?_, ?_, ?_, ?_, ?_, rfl⟩
  · cases hR : m.hasRPS <;>
      simp [summary_values, summary_headers, hR]
  · simp [energy_sources_row, energy_sources_headings]
  · simp [capacity_by_technology_row, capacity_by_technology_headings]
  · simp [capacity_by_energy_source_row, capacity_by_energy_source_headings]
  · simp only [cost_breakdown_details, cost_breakdown_headings, hEV,
      List.length_append, List.length_map, List.length_cons, List.length_nil,
      apply_ite List.length, ite_self]
    cases h4 : m.has_ice_annual_fuel_cost <;> simp [h4]

/-- Witness for the amended C6 at the concrete model `mC1` (whose EV and ICE
cost attributes are both absent). -/
theorem C6_row_arity_witness :
    mC1.has_ev_extra_annual_cost = mC1.has_ice_annual_fuel_cost ∧
      ((summary_values mC1).length = (summary_headers mC1).length
        ∧ (energy_sources_row mC1 "oahu" 0).length = (energy_sources_headings mC1).length
        ∧ (capacity_by_technology_row mC1 "oahu" 0).length
            = (capacity_by_technology_headings mC1).length
        ∧ (capacity_by_energy_source_row mC1 "oahu" 0).length
            = (capacity_by_energy_source_headings mC1).length
        ∧ (cost_breakdown_details mC1 "oahu" 0).length = (cost_breakdown_headings mC1).length
        ∧ (rfm_activate_row mC1 ("hawaii", 0, "base")).length = rfm_activate_headings.length) :=
  ⟨rfl, C6_amended_row_arity_matches_header mC1 "oahu" 0 0 ("hawaii", 0, "base") rfl⟩
